import Mathlib

/-!
Verification development for the bolt AST node model (`src/bolt/ast.py`).

The Python module defines the abstract-syntax-tree node model of the bolt
scripting language as a collection of frozen dataclasses.  Every concrete
class is embedded below: the closed class families (`AstExpression`,
`AstTarget`, `AstMacroMatch`) become Lean inductive types whose constructors
are named after the concrete Python classes, and the standalone node classes
become Lean structures of the same name.  Python construction with keyword
arguments is embedded by one explicit constructor function per class
(`mkAstIdentifier`, ...) taking an `Option` per dataclass field: `none` means
the caller omitted the field, in which case the field default applies when the
class declares one and construction fails when the field is declared with
`required_field()`.  Equality of the embedded nodes is Lean structural
equality, matching the `__eq__` generated for a frozen dataclass (field-tuple
comparison, source locations excluded from comparison), except for the
retained token stream of `AstDeferredRoot`, whose Python equality is object
identity and is modelled explicitly.
-/

/-- Payload of an `AstValue` node.  Modelled from the spec: the `value`
attribute of a `Value` node "holds a resolved literal (number, string, bool,
etc.)"; the Python annotation is `Any`. -/
inductive PyLiteral where
  | none
  | bool (b : Bool)
  | int (n : Int)
  | str (s : String)
deriving DecidableEq, Repr

/-- Error signalled when node construction fails.  Modelled from the spec:
constructing a node while a required attribute is left unset "signals a
construction error identifying the missing attribute by name and owning node
type" (the `required_field()` machinery comes from an external package and is
not under `src/`), and a token not matching a literal node class pattern is
"rejected at the point of constructing that specific node". -/
inductive ConstructError where
  | missingAttribute (nodeType : String) (attrName : String)
  | shapeViolation (nodeType : String) (supplied : String)
deriving DecidableEq, Repr

/-- Error raised by the `__setattr__` that `@dataclass(frozen=True)`
generates: any assignment to a field of a constructed instance raises
`FrozenInstanceError` naming the assigned field. -/
structure FrozenInstanceError where
  attrName : String
deriving DecidableEq, Repr

/-- Outcome of attempting `setattr` on a frozen node: the error raised
together with the state of the instance after the attempt. -/
structure SetattrAttempt (α : Type) where
  raised : FrozenInstanceError
  after : α

/-- Embedding of the `__setattr__` generated by `@dataclass(frozen=True)`,
which every class in `src/bolt/ast.py` uses: it unconditionally raises
`FrozenInstanceError` for the assigned field name and never touches the
instance, so the instance state after the attempt is the instance itself. -/
def frozenSetattr {α : Type} {γ : Type} (node : α) (attrName : String)
    (_newValue : γ) : SetattrAttempt α :=
  ⟨⟨attrName⟩, node⟩

/-- Modelled from the spec: `src/bolt/pattern.py` (not under `src/`) defines
`IDENTIFIER_PATTERN`, the identifier lexical pattern compiled into
`AstMacroArgument.regex`; a matching token is an ASCII letter or underscore
followed by ASCII letters, digits or underscores. -/
def isIdentifier (s : String) : Bool :=
  match s.data with
  | [] => false
  | c :: cs =>
    (c.isAlpha || c = Char.ofNat 95) &&
      cs.all (fun d => d.isAlphanum || d = Char.ofNat 95)

/-- Modelled from the spec: external host-language command node held by the
root-node contract; carried opaquely by this model. -/
structure AstCommand where
  identifier : String
deriving DecidableEq, Repr

/-- Modelled from the spec: external resource-location value type referencing
the parser responsible for a macro argument slot; carried opaquely by this
model as its textual form. -/
structure AstResourceLocation where
  path : String
deriving DecidableEq, Repr

/-- Modelled from the spec: external JSON-literal node type used for the
optional structured configuration of a macro argument slot; carried opaquely
by this model as its textual form. -/
structure AstJson where
  payload : String
deriving DecidableEq, Repr

/-- Modelled from the spec: external token stream class retained by
`AstDeferredRoot`, "a resumable cursor over unconsumed input".  It is a
mutable object, so the model carries an object identity tag distinguishing
distinct stream objects in addition to the buffered source text. -/
structure TokenStream where
  objectId : Nat
  source : String
deriving DecidableEq, Repr

mutual

/-- The expression family of `src/bolt/ast.py`: the abstract base class
`AstExpression` together with its closed set of concrete subclasses, one
constructor per class.  `AstChildren` sequences are embedded as `List`. -/
inductive AstExpression where
  | AstExpressionBinary (operator : String) (left : AstExpression)
      (right : AstExpression)
  | AstExpressionUnary (operator : String) (value : AstExpression)
  | AstValue (value : PyLiteral)
  | AstIdentifier (value : String)
  | AstFormatString (fmt : String) (values : List AstExpression)
  | AstTuple (items : List AstExpression)
  | AstList (items : List AstExpression)
  | AstDict (items : List AstDictItem)
  | AstAttribute (name : String) (value : AstExpression)
  | AstLookup (value : AstExpression) (arguments : List AstLookupArgument)
  | AstCall (value : AstExpression) (arguments : List AstCallArgument)

/-- The `AstDictItem` class: a key-value entry of a dict display. -/
inductive AstDictItem where
  | mk (key : AstExpression) (value : AstExpression)

/-- The `AstSlice` class: all three attributes are `Optional` with default
`None`, the documented absent state. -/
inductive AstSlice where
  | mk (start : Option AstExpression) (stop : Option AstExpression)
      (step : Option AstExpression)

/-- Element of the `arguments` sequence of `AstLookup` and `AstTargetItem`,
annotated `Union[AstExpression, AstSlice]` in the source. -/
inductive AstLookupArgument where
  | expression (node : AstExpression)
  | slice (node : AstSlice)

/-- The `AstUnpack` class: spread marker in call arguments or sequences. -/
inductive AstUnpack where
  | mk (type : String) (value : AstExpression)

/-- The `AstKeyword` class: named call argument. -/
inductive AstKeyword where
  | mk (name : String) (value : AstExpression)

/-- Element of the `arguments` sequence of `AstCall`, annotated
`Union[AstExpression, AstUnpack, AstKeyword]` in the source. -/
inductive AstCallArgument where
  | expression (node : AstExpression)
  | unpack (node : AstUnpack)
  | keyword (node : AstKeyword)

end

/-- The target family of `src/bolt/ast.py`: the abstract base class
`AstTarget` together with its closed set of concrete subclasses.  It is a
separate type from `AstExpression`: no class of the module subclasses both
bases (see the class table below). -/
inductive AstTarget where
  | AstTargetIdentifier (value : String) (rebind : Bool)
  | AstTargetUnpack (targets : List AstTarget)
  | AstTargetAttribute (name : String) (value : AstExpression)
  | AstTargetItem (value : AstExpression)
      (arguments : List AstLookupArgument)

/-- The `AstAssignment` class. -/
structure AstAssignment where
  operator : String
  target : AstTarget
  value : AstExpression

/-- The `AstDecorator` class. -/
structure AstDecorator where
  expression : AstExpression

/-- The `AstFunctionSignatureArgument` class: `default` is `Optional` with
default `None`, the documented absent state. -/
structure AstFunctionSignatureArgument where
  name : String
  default : Option AstExpression

/-- The `AstFunctionSignature` class: `decorators` defaults to the empty
child sequence while `name` and `arguments` are required. -/
structure AstFunctionSignature where
  decorators : List AstDecorator
  name : String
  arguments : List AstFunctionSignatureArgument

/-- The `AstDeferredRoot` class: retains the token stream whose parsing is
postponed. -/
structure AstDeferredRoot where
  stream : TokenStream

/-- The `AstMacroLiteral` class.  It subclasses the external `AstLiteral`
base; modelled from the spec, a literal token form carrying its token text as
the inherited required `value` attribute. -/
structure AstMacroLiteral where
  value : String

/-- The `AstMacroArgument` class.  It subclasses the external `AstLiteral`
base and sets `regex = re.compile(IDENTIFIER_PATTERN)`; modelled from the
spec: "any token not matching that pattern cannot be represented as a
`MacroArgument` at all", so the carried token text is constrained to the
identifier pattern by construction. -/
structure AstMacroArgument where
  value : String
  valid : isIdentifier value = true

/-- The macro match family of `src/bolt/ast.py`: the abstract base class
`AstMacroMatch` and its two concrete subclasses.  The field written
`match_argument_parser_ref` here is named `match_argument_parser` in the
source. -/
inductive AstMacroMatch where
  | AstMacroMatchLiteral (match_ : AstMacroLiteral)
  | AstMacroMatchArgument (match_identifier : AstMacroArgument)
      (match_argument_parser_ref : AstResourceLocation)
      (match_argument_properties : Option AstJson)

/-- The `AstInterpolation` class: `prefix` and `unpack` (written `prefix_`
and `unpack_` here, the former because `prefix` is reserved in Lean) are
`Optional` with default `None`, declared before the required `converter` and
`value`. -/
structure AstInterpolation where
  prefix_ : Option String
  unpack_ : Option String
  converter : String
  value : AstExpression

/-- The `AstImportedIdentifier` class. -/
structure AstImportedIdentifier where
  value : String

/-- The `AstModuleRoot` class.  It subclasses the external `AstRoot` base;
modelled from the spec, the root-node contract holds the ordered sequence of
host commands of the compiled unit as a required attribute. -/
structure AstModuleRoot where
  commands : List AstCommand

/-! Constructor functions, one per concrete class: `none` for a parameter
means the corresponding keyword argument was omitted at the call site.
Fields are checked in dataclass field order, matching the order in which the
generated `__init__` evaluates field defaults, so when several required
attributes are omitted the error names the first one in field order. -/

/-- Construction of `AstModuleRoot(commands=...)`. -/
def mkAstModuleRoot : Option (List AstCommand) →
    Except ConstructError AstModuleRoot
  | none => .error (.missingAttribute "AstModuleRoot" "commands")
  | some commands => .ok ⟨commands⟩

/-- Construction of `AstExpressionBinary(operator=..., left=..., right=...)`. -/
def mkAstExpressionBinary : Option String → Option AstExpression →
    Option AstExpression → Except ConstructError AstExpression
  | none, _, _ => .error (.missingAttribute "AstExpressionBinary" "operator")
  | some _, none, _ => .error (.missingAttribute "AstExpressionBinary" "left")
  | some _, some _, none =>
    .error (.missingAttribute "AstExpressionBinary" "right")
  | some o, some l, some r => .ok (.AstExpressionBinary o l r)

/-- Construction of `AstExpressionUnary(operator=..., value=...)`. -/
def mkAstExpressionUnary : Option String → Option AstExpression →
    Except ConstructError AstExpression
  | none, _ => .error (.missingAttribute "AstExpressionUnary" "operator")
  | some _, none => .error (.missingAttribute "AstExpressionUnary" "value")
  | some o, some v => .ok (.AstExpressionUnary o v)

/-- Construction of `AstValue(value=...)`. -/
def mkAstValue : Option PyLiteral → Except ConstructError AstExpression
  | none => .error (.missingAttribute "AstValue" "value")
  | some v => .ok (.AstValue v)

/-- Construction of `AstIdentifier(value=...)`. -/
def mkAstIdentifier : Option String → Except ConstructError AstExpression
  | none => .error (.missingAttribute "AstIdentifier" "value")
  | some v => .ok (.AstIdentifier v)

/-- Construction of `AstFormatString(fmt=..., values=...)`. -/
def mkAstFormatString : Option String → Option (List AstExpression) →
    Except ConstructError AstExpression
  | none, _ => .error (.missingAttribute "AstFormatString" "fmt")
  | some _, none => .error (.missingAttribute "AstFormatString" "values")
  | some f, some vs => .ok (.AstFormatString f vs)

/-- Construction of `AstTuple(items=...)`. -/
def mkAstTuple : Option (List AstExpression) →
    Except ConstructError AstExpression
  | none => .error (.missingAttribute "AstTuple" "items")
  | some items => .ok (.AstTuple items)

/-- Construction of `AstList(items=...)`. -/
def mkAstList : Option (List AstExpression) →
    Except ConstructError AstExpression
  | none => .error (.missingAttribute "AstList" "items")
  | some items => .ok (.AstList items)

/-- Construction of `AstDictItem(key=..., value=...)`. -/
def mkAstDictItem : Option AstExpression → Option AstExpression →
    Except ConstructError AstDictItem
  | none, _ => .error (.missingAttribute "AstDictItem" "key")
  | some _, none => .error (.missingAttribute "AstDictItem" "value")
  | some k, some v => .ok (.mk k v)

/-- Construction of `AstDict(items=...)`. -/
def mkAstDict : Option (List AstDictItem) →
    Except ConstructError AstExpression
  | none => .error (.missingAttribute "AstDict" "items")
  | some items => .ok (.AstDict items)

/-- Construction of `AstSlice(start=..., stop=..., step=...)`: every
attribute is optional and defaults to the absent state. -/
def mkAstSlice (start : Option (Option AstExpression))
    (stop : Option (Option AstExpression))
    (step : Option (Option AstExpression)) :
    Except ConstructError AstSlice :=
  .ok (.mk (start.getD none) (stop.getD none) (step.getD none))

/-- Construction of `AstUnpack(type=..., value=...)`. -/
def mkAstUnpack : Option String → Option AstExpression →
    Except ConstructError AstUnpack
  | none, _ => .error (.missingAttribute "AstUnpack" "type")
  | some _, none => .error (.missingAttribute "AstUnpack" "value")
  | some t, some v => .ok (.mk t v)

/-- Construction of `AstKeyword(name=..., value=...)`. -/
def mkAstKeyword : Option String → Option AstExpression →
    Except ConstructError AstKeyword
  | none, _ => .error (.missingAttribute "AstKeyword" "name")
  | some _, none => .error (.missingAttribute "AstKeyword" "value")
  | some n, some v => .ok (.mk n v)

/-- Construction of `AstAttribute(name=..., value=...)`. -/
def mkAstAttribute : Option String → Option AstExpression →
    Except ConstructError AstExpression
  | none, _ => .error (.missingAttribute "AstAttribute" "name")
  | some _, none => .error (.missingAttribute "AstAttribute" "value")
  | some n, some v => .ok (.AstAttribute n v)

/-- Construction of `AstLookup(value=..., arguments=...)`. -/
def mkAstLookup : Option AstExpression → Option (List AstLookupArgument) →
    Except ConstructError AstExpression
  | none, _ => .error (.missingAttribute "AstLookup" "value")
  | some _, none => .error (.missingAttribute "AstLookup" "arguments")
  | some v, some args => .ok (.AstLookup v args)

/-- Construction of `AstCall(value=..., arguments=...)`. -/
def mkAstCall : Option AstExpression → Option (List AstCallArgument) →
    Except ConstructError AstExpression
  | none, _ => .error (.missingAttribute "AstCall" "value")
  | some _, none => .error (.missingAttribute "AstCall" "arguments")
  | some v, some args => .ok (.AstCall v args)

/-- Construction of `AstTargetIdentifier(value=..., rebind=...)`: `rebind`
has declared default `False` and may be omitted. -/
def mkAstTargetIdentifier : Option String → Option Bool →
    Except ConstructError AstTarget
  | none, _ => .error (.missingAttribute "AstTargetIdentifier" "value")
  | some v, rebind => .ok (.AstTargetIdentifier v (rebind.getD false))

/-- Construction of `AstTargetUnpack(targets=...)`. -/
def mkAstTargetUnpack : Option (List AstTarget) →
    Except ConstructError AstTarget
  | none => .error (.missingAttribute "AstTargetUnpack" "targets")
  | some targets => .ok (.AstTargetUnpack targets)

/-- Construction of `AstTargetAttribute(name=..., value=...)`. -/
def mkAstTargetAttribute : Option String → Option AstExpression →
    Except ConstructError AstTarget
  | none, _ => .error (.missingAttribute "AstTargetAttribute" "name")
  | some _, none => .error (.missingAttribute "AstTargetAttribute" "value")
  | some n, some v => .ok (.AstTargetAttribute n v)

/-- Construction of `AstTargetItem(value=..., arguments=...)`. -/
def mkAstTargetItem : Option AstExpression →
    Option (List AstLookupArgument) → Except ConstructError AstTarget
  | none, _ => .error (.missingAttribute "AstTargetItem" "value")
  | some _, none => .error (.missingAttribute "AstTargetItem" "arguments")
  | some v, some args => .ok (.AstTargetItem v args)

/-- Construction of `AstAssignment(operator=..., target=..., value=...)`. -/
def mkAstAssignment : Option String → Option AstTarget →
    Option AstExpression → Except ConstructError AstAssignment
  | none, _, _ => .error (.missingAttribute "AstAssignment" "operator")
  | some _, none, _ => .error (.missingAttribute "AstAssignment" "target")
  | some _, some _, none => .error (.missingAttribute "AstAssignment" "value")
  | some o, some t, some v => .ok ⟨o, t, v⟩

/-- Construction of `AstDecorator(expression=...)`. -/
def mkAstDecorator : Option AstExpression →
    Except ConstructError AstDecorator
  | none => .error (.missingAttribute "AstDecorator" "expression")
  | some e => .ok ⟨e⟩

/-- Construction of `AstFunctionSignatureArgument(name=..., default=...)`:
`default` is optional and defaults to the absent state. -/
def mkAstFunctionSignatureArgument : Option String →
    Option (Option AstExpression) →
    Except ConstructError AstFunctionSignatureArgument
  | none, _ =>
    .error (.missingAttribute "AstFunctionSignatureArgument" "name")
  | some n, default => .ok ⟨n, default.getD none⟩

/-- Construction of
`AstFunctionSignature(decorators=..., name=..., arguments=...)`:
`decorators` has declared default `AstChildren()` (the empty sequence) and
may be omitted; `name` and `arguments` are required. -/
def mkAstFunctionSignature : Option (List AstDecorator) → Option String →
    Option (List AstFunctionSignatureArgument) →
    Except ConstructError AstFunctionSignature
  | _, none, _ => .error (.missingAttribute "AstFunctionSignature" "name")
  | _, some _, none =>
    .error (.missingAttribute "AstFunctionSignature" "arguments")
  | decorators, some n, some args => .ok ⟨decorators.getD [], n, args⟩

/-- Construction of `AstDeferredRoot(stream=...)`. -/
def mkAstDeferredRoot : Option TokenStream →
    Except ConstructError AstDeferredRoot
  | none => .error (.missingAttribute "AstDeferredRoot" "stream")
  | some s => .ok ⟨s⟩

/-- Construction of `AstMacroLiteral(value=...)` with the inherited required
`value` attribute of the external literal base class. -/
def mkAstMacroLiteral : Option String →
    Except ConstructError AstMacroLiteral
  | none => .error (.missingAttribute "AstMacroLiteral" "value")
  | some v => .ok ⟨v⟩

/-- Construction of `AstMacroArgument(value=...)`: the inherited required
`value` attribute must match the identifier pattern compiled into the class
(`regex = re.compile(IDENTIFIER_PATTERN)`); a non-matching token is rejected
at the point of constructing this node. -/
def mkAstMacroArgument : Option String →
    Except ConstructError AstMacroArgument
  | none => .error (.missingAttribute "AstMacroArgument" "value")
  | some v =>
    if h : isIdentifier v = true then .ok ⟨v, h⟩
    else .error (.shapeViolation "AstMacroArgument" v)

/-- Construction of `AstMacroMatchLiteral(match=...)`. -/
def mkAstMacroMatchLiteral : Option AstMacroLiteral →
    Except ConstructError AstMacroMatch
  | none => .error (.missingAttribute "AstMacroMatchLiteral" "match")
  | some m => .ok (.AstMacroMatchLiteral m)

/-- Construction of `AstMacroMatchArgument(match_identifier=...,
match_argument_parser=..., match_argument_properties=...)`: the last
attribute is optional and defaults to the absent state. -/
def mkAstMacroMatchArgument : Option AstMacroArgument →
    Option AstResourceLocation → Option (Option AstJson) →
    Except ConstructError AstMacroMatch
  | none, _, _ =>
    .error (.missingAttribute "AstMacroMatchArgument" "match_identifier")
  | some _, none, _ =>
    .error (.missingAttribute "AstMacroMatchArgument" "match_argument_parser")
  | some mi, some mp, props =>
    .ok (.AstMacroMatchArgument mi mp (props.getD none))

/-- Construction of `AstInterpolation(prefix=..., unpack=..., converter=...,
value=...)`: `prefix` and `unpack` are optional with the absent state as
default and are declared before the required `converter` and `value`, which
is exactly the field ordering the required-field machinery exists to allow. -/
def mkAstInterpolation (prefix_ : Option (Option String))
    (unpack_ : Option (Option String)) (converter : Option String)
    (value : Option AstExpression) :
    Except ConstructError AstInterpolation :=
  match converter with
  | none => .error (.missingAttribute "AstInterpolation" "converter")
  | some c =>
    match value with
    | none => .error (.missingAttribute "AstInterpolation" "value")
    | some v => .ok ⟨prefix_.getD none, unpack_.getD none, c, v⟩

/-- Construction of `AstImportedIdentifier(value=...)`. -/
def mkAstImportedIdentifier : Option String →
    Except ConstructError AstImportedIdentifier
  | none => .error (.missingAttribute "AstImportedIdentifier" "value")
  | some v => .ok ⟨v⟩

/-- Python value equality of two retained token streams.  Modelled from the
spec: the external token stream class is a mutable cursor object and defines
no value equality of its own, so Python compares stream attributes by object
identity; in the model, two streams are the same object exactly when they
carry the same identity tag. -/
def pyEqTokenStream (t u : TokenStream) : Bool :=
  t.objectId == u.objectId

/-- Python equality of two `AstDeferredRoot` nodes: the generated dataclass
`__eq__` compares the field tuple `(stream,)`, and comparing the retained
streams falls back to object identity. -/
def pyEqAstDeferredRoot (a b : AstDeferredRoot) : Bool :=
  pyEqTokenStream a.stream b.stream

/-- Python default object hash of a retained token stream, derived from the
object identity; the external token stream class defines no `__hash__` of its
own. -/
def pyHashTokenStream (t : TokenStream) : UInt64 :=
  hash t.objectId

/-- Hash of an `AstDeferredRoot` node: the generated dataclass `__hash__`
hashes the field tuple `(stream,)`, and hashing the retained stream falls
back to the identity-derived object hash. -/
def pyHashAstDeferredRoot (a : AstDeferredRoot) : UInt64 :=
  mixHash 31 (pyHashTokenStream a.stream)

/-- The class hierarchy declared in `src/bolt/ast.py`, as pairs of a class
name and its declared direct base class.  The final two entries are the
external base classes of `AstModuleRoot`, `AstMacroLiteral` and
`AstMacroArgument`, which themselves derive from the shared external node
base. -/
def declaredBases : List (String × String) :=
  [("AstModuleRoot", "AstRoot"),
   ("AstExpression", "AstNode"),
   ("AstExpressionBinary", "AstExpression"),
   ("AstExpressionUnary", "AstExpression"),
   ("AstValue", "AstExpression"),
   ("AstIdentifier", "AstExpression"),
   ("AstFormatString", "AstExpression"),
   ("AstTuple", "AstExpression"),
   ("AstList", "AstExpression"),
   ("AstDictItem", "AstNode"),
   ("AstDict", "AstExpression"),
   ("AstSlice", "AstNode"),
   ("AstUnpack", "AstNode"),
   ("AstKeyword", "AstNode"),
   ("AstAttribute", "AstExpression"),
   ("AstLookup", "AstExpression"),
   ("AstCall", "AstExpression"),
   ("AstTarget", "AstNode"),
   ("AstTargetIdentifier", "AstTarget"),
   ("AstTargetUnpack", "AstTarget"),
   ("AstTargetAttribute", "AstTarget"),
   ("AstTargetItem", "AstTarget"),
   ("AstAssignment", "AstNode"),
   ("AstDecorator", "AstNode"),
   ("AstFunctionSignatureArgument", "AstNode"),
   ("AstFunctionSignature", "AstNode"),
   ("AstDeferredRoot", "AstNode"),
   ("AstMacroLiteral", "AstLiteral"),
   ("AstMacroArgument", "AstLiteral"),
   ("AstMacroMatch", "AstNode"),
   ("AstMacroMatchLiteral", "AstMacroMatch"),
   ("AstMacroMatchArgument", "AstMacroMatch"),
   ("AstInterpolation", "AstNode"),
   ("AstImportedIdentifier", "AstNode"),
   ("AstRoot", "AstNode"),
   ("AstLiteral", "AstNode")]

/-- Direct base class lookup over the declared hierarchy. -/
def directBase (c : String) : Option String :=
  (declaredBases.find? (fun p => p.1 == c)).map (fun p => p.2)

/-- Chain of base classes of a class, following declared direct bases; the
fuel bound exceeds the depth of the declared hierarchy. -/
def baseChain : Nat → String → List String
  | 0, _ => []
  | n + 1, c =>
    match directBase c with
    | none => []
    | some b => b :: baseChain n b

/-- Subclass relation induced by the declared hierarchy: a class is a
subclass of itself and of every class in its base chain.  This is the
relation `isinstance` checks resolve against, so it decides where a node
value is accepted. -/
def isSubclassOf (c d : String) : Bool :=
  c == d || (baseChain 8 c).contains d

/-- The concrete node classes of the module (the abstract family bases
excluded). -/
def concreteNodeClasses : List String :=
  ["AstModuleRoot", "AstExpressionBinary", "AstExpressionUnary", "AstValue",
   "AstIdentifier", "AstFormatString", "AstTuple", "AstList", "AstDictItem",
   "AstDict", "AstSlice", "AstUnpack", "AstKeyword", "AstAttribute",
   "AstLookup", "AstCall", "AstTargetIdentifier", "AstTargetUnpack",
   "AstTargetAttribute", "AstTargetItem", "AstAssignment", "AstDecorator",
   "AstFunctionSignatureArgument", "AstFunctionSignature", "AstDeferredRoot",
   "AstMacroLiteral", "AstMacroArgument", "AstMacroMatchLiteral",
   "AstMacroMatchArgument", "AstInterpolation", "AstImportedIdentifier"]

/-- The four concrete classes of the target family. -/
def targetVariantClasses : List String :=
  ["AstTargetIdentifier", "AstTargetUnpack", "AstTargetAttribute",
   "AstTargetItem"]

/-- The eleven concrete classes of the expression family. -/
def expressionVariantClasses : List String :=
  ["AstExpressionBinary", "AstExpressionUnary", "AstValue", "AstIdentifier",
   "AstFormatString", "AstTuple", "AstList", "AstDict", "AstAttribute",
   "AstLookup", "AstCall"]

/-- Hash of an `AstValue` payload; Python literals hash by value. -/
def pyHashLiteral : PyLiteral → UInt64
  | .none => 2
  | .bool b => mixHash 3 (hash b)
  | .int n => mixHash 5 (hash n)
  | .str s => mixHash 7 (hash s)

mutual

/-- Hash of an expression node, mirroring the `__hash__` generated for a
frozen dataclass: a combination of a per-class tag and the hashes of exactly
the fields that participate in comparison. -/
def pyHashExpr : AstExpression → UInt64
  | .AstExpressionBinary o l r =>
    mixHash 10 (mixHash (hash o) (mixHash (pyHashExpr l) (pyHashExpr r)))
  | .AstExpressionUnary o v => mixHash 11 (mixHash (hash o) (pyHashExpr v))
  | .AstValue v => mixHash 12 (pyHashLiteral v)
  | .AstIdentifier v => mixHash 13 (hash v)
  | .AstFormatString f vs => mixHash 14 (mixHash (hash f) (pyHashExprList vs))
  | .AstTuple items => mixHash 15 (pyHashExprList items)
  | .AstList items => mixHash 16 (pyHashExprList items)
  | .AstDict items => mixHash 17 (pyHashDictItemList items)
  | .AstAttribute n v => mixHash 18 (mixHash (hash n) (pyHashExpr v))
  | .AstLookup v args =>
    mixHash 19 (mixHash (pyHashExpr v) (pyHashLookupArgumentList args))
  | .AstCall v args =>
    mixHash 20 (mixHash (pyHashExpr v) (pyHashCallArgumentList args))

/-- Hash of an `AstDictItem` node. -/
def pyHashDictItem : AstDictItem → UInt64
  | .mk k v => mixHash 21 (mixHash (pyHashExpr k) (pyHashExpr v))

/-- Hash of an optional expression attribute; the absent state hashes to a
constant, as `None` does. -/
def pyHashOptExpr : Option AstExpression → UInt64
  | none => 22
  | some e => mixHash 23 (pyHashExpr e)

/-- Hash of an `AstSlice` node. -/
def pyHashSlice : AstSlice → UInt64
  | .mk a b c =>
    mixHash 24
      (mixHash (pyHashOptExpr a) (mixHash (pyHashOptExpr b) (pyHashOptExpr c)))

/-- Hash of one element of a lookup argument sequence. -/
def pyHashLookupArgument : AstLookupArgument → UInt64
  | .expression e => mixHash 25 (pyHashExpr e)
  | .slice s => mixHash 26 (pyHashSlice s)

/-- Hash of an `AstUnpack` node. -/
def pyHashUnpack : AstUnpack → UInt64
  | .mk t v => mixHash 27 (mixHash (hash t) (pyHashExpr v))

/-- Hash of an `AstKeyword` node. -/
def pyHashKeyword : AstKeyword → UInt64
  | .mk n v => mixHash 28 (mixHash (hash n) (pyHashExpr v))

/-- Hash of one element of a call argument sequence. -/
def pyHashCallArgument : AstCallArgument → UInt64
  | .expression e => mixHash 29 (pyHashExpr e)
  | .unpack u => mixHash 30 (pyHashUnpack u)
  | .keyword k => mixHash 32 (pyHashKeyword k)

/-- Hash of an expression child sequence, order-sensitive as tuple hashing
is. -/
def pyHashExprList : List AstExpression → UInt64
  | [] => 33
  | e :: es => mixHash (pyHashExpr e) (pyHashExprList es)

/-- Hash of a dict item child sequence. -/
def pyHashDictItemList : List AstDictItem → UInt64
  | [] => 34
  | d :: ds => mixHash (pyHashDictItem d) (pyHashDictItemList ds)

/-- Hash of a lookup argument child sequence. -/
def pyHashLookupArgumentList : List AstLookupArgument → UInt64
  | [] => 35
  | a :: as_ => mixHash (pyHashLookupArgument a) (pyHashLookupArgumentList as_)

/-- Hash of a call argument child sequence. -/
def pyHashCallArgumentList : List AstCallArgument → UInt64
  | [] => 36
  | a :: as_ => mixHash (pyHashCallArgument a) (pyHashCallArgumentList as_)

end

mutual

/-- Hash of a target node. -/
def pyHashTarget : AstTarget → UInt64
  | .AstTargetIdentifier v rb => mixHash 37 (mixHash (hash v) (hash rb))
  | .AstTargetUnpack targets => mixHash 38 (pyHashTargetList targets)
  | .AstTargetAttribute n v => mixHash 39 (mixHash (hash n) (pyHashExpr v))
  | .AstTargetItem v args =>
    mixHash 40 (mixHash (pyHashExpr v) (pyHashLookupArgumentList args))

/-- Hash of a target child sequence. -/
def pyHashTargetList : List AstTarget → UInt64
  | [] => 41
  | t :: ts => mixHash (pyHashTarget t) (pyHashTargetList ts)

end

/-- Hash of an `AstAssignment` node. -/
def pyHashAssignment (a : AstAssignment) : UInt64 :=
  mixHash 42
    (mixHash (hash a.operator)
      (mixHash (pyHashTarget a.target) (pyHashExpr a.value)))

/-- Hash of an `AstDecorator` node. -/
def pyHashDecorator (d : AstDecorator) : UInt64 :=
  mixHash 43 (pyHashExpr d.expression)

/-- Hash of an `AstFunctionSignatureArgument` node. -/
def pyHashFunctionSignatureArgument
    (a : AstFunctionSignatureArgument) : UInt64 :=
  mixHash 44 (mixHash (hash a.name) (pyHashOptExpr a.default))

/-- Hash of an `AstFunctionSignature` node. -/
def pyHashFunctionSignature (s : AstFunctionSignature) : UInt64 :=
  mixHash 45
    (mixHash ((s.decorators.map pyHashDecorator).foldl mixHash 46)
      (mixHash (hash s.name)
        ((s.arguments.map pyHashFunctionSignatureArgument).foldl mixHash 47)))

/-- Hash of an `AstMacroLiteral` node. -/
def pyHashMacroLiteral (m : AstMacroLiteral) : UInt64 :=
  mixHash 48 (hash m.value)

/-- Hash of an `AstMacroArgument` node. -/
def pyHashMacroArgument (m : AstMacroArgument) : UInt64 :=
  mixHash 49 (hash m.value)

/-- Hash of a macro match node. -/
def pyHashMacroMatch : AstMacroMatch → UInt64
  | .AstMacroMatchLiteral m => mixHash 50 (pyHashMacroLiteral m)
  | .AstMacroMatchArgument mi mp props =>
    mixHash 51
      (mixHash (pyHashMacroArgument mi)
        (mixHash (hash mp.path)
          (match props with
           | none => 52
           | some j => mixHash 53 (hash j.payload))))

/-- Hash of an `AstInterpolation` node. -/
def pyHashInterpolation (i : AstInterpolation) : UInt64 :=
  mixHash 54
    (mixHash (hash i.prefix_)
      (mixHash (hash i.unpack_)
        (mixHash (hash i.converter) (pyHashExpr i.value))))

/-- Hash of an `AstImportedIdentifier` node. -/
def pyHashImportedIdentifier (i : AstImportedIdentifier) : UInt64 :=
  mixHash 55 (hash i.value)

/-- Hash of an `AstModuleRoot` node. -/
def pyHashModuleRoot (r : AstModuleRoot) : UInt64 :=
  mixHash 56 ((r.commands.map (fun c => hash c.identifier)).foldl mixHash 57)

/-- Statement that omitting any single required attribute of any node class
fails construction with an error naming that attribute and the class, while
every other attribute of the class is supplied.  The enumeration covers every
`required_field()` attribute of every class in `src/bolt/ast.py`, in
dataclass field order. -/
def requiredOmissionErrors : Prop :=
  (mkAstModuleRoot none =
    .error (.missingAttribute "AstModuleRoot" "commands")) ∧
  (∀ l r : AstExpression, mkAstExpressionBinary none (some l) (some r) =
    .error (.missingAttribute "AstExpressionBinary" "operator")) ∧
  (∀ (o : String) (r : AstExpression),
    mkAstExpressionBinary (some o) none (some r) =
      .error (.missingAttribute "AstExpressionBinary" "left")) ∧
  (∀ (o : String) (l : AstExpression),
    mkAstExpressionBinary (some o) (some l) none =
      .error (.missingAttribute "AstExpressionBinary" "right")) ∧
  (∀ v : AstExpression, mkAstExpressionUnary none (some v) =
    .error (.missingAttribute "AstExpressionUnary" "operator")) ∧
  (∀ o : String, mkAstExpressionUnary (some o) none =
    .error (.missingAttribute "AstExpressionUnary" "value")) ∧
  (mkAstValue none = .error (.missingAttribute "AstValue" "value")) ∧
  (mkAstIdentifier none =
    .error (.missingAttribute "AstIdentifier" "value")) ∧
  (∀ vs : List AstExpression, mkAstFormatString none (some vs) =
    .error (.missingAttribute "AstFormatString" "fmt")) ∧
  (∀ f : String, mkAstFormatString (some f) none =
    .error (.missingAttribute "AstFormatString" "values")) ∧
  (mkAstTuple none = .error (.missingAttribute "AstTuple" "items")) ∧
  (mkAstList none = .error (.missingAttribute "AstList" "items")) ∧
  (∀ v : AstExpression, mkAstDictItem none (some v) =
    .error (.missingAttribute "AstDictItem" "key")) ∧
  (∀ k : AstExpression, mkAstDictItem (some k) none =
    .error (.missingAttribute "AstDictItem" "value")) ∧
  (mkAstDict none = .error (.missingAttribute "AstDict" "items")) ∧
  (∀ v : AstExpression, mkAstUnpack none (some v) =
    .error (.missingAttribute "AstUnpack" "type")) ∧
  (∀ t : String, mkAstUnpack (some t) none =
    .error (.missingAttribute "AstUnpack" "value")) ∧
  (∀ v : AstExpression, mkAstKeyword none (some v) =
    .error (.missingAttribute "AstKeyword" "name")) ∧
  (∀ n : String, mkAstKeyword (some n) none =
    .error (.missingAttribute "AstKeyword" "value")) ∧
  (∀ v : AstExpression, mkAstAttribute none (some v) =
    .error (.missingAttribute "AstAttribute" "name")) ∧
  (∀ n : String, mkAstAttribute (some n) none =
    .error (.missingAttribute "AstAttribute" "value")) ∧
  (∀ args : List AstLookupArgument, mkAstLookup none (some args) =
    .error (.missingAttribute "AstLookup" "value")) ∧
  (∀ v : AstExpression, mkAstLookup (some v) none =
    .error (.missingAttribute "AstLookup" "arguments")) ∧
  (∀ args : List AstCallArgument, mkAstCall none (some args) =
    .error (.missingAttribute "AstCall" "value")) ∧
  (∀ v : AstExpression, mkAstCall (some v) none =
    .error (.missingAttribute "AstCall" "arguments")) ∧
  (∀ rb : Option Bool, mkAstTargetIdentifier none rb =
    .error (.missingAttribute "AstTargetIdentifier" "value")) ∧
  (mkAstTargetUnpack none =
    .error (.missingAttribute "AstTargetUnpack" "targets")) ∧
  (∀ v : AstExpression, mkAstTargetAttribute none (some v) =
    .error (.missingAttribute "AstTargetAttribute" "name")) ∧
  (∀ n : String, mkAstTargetAttribute (some n) none =
    .error (.missingAttribute "AstTargetAttribute" "value")) ∧
  (∀ args : List AstLookupArgument, mkAstTargetItem none (some args) =
    .error (.missingAttribute "AstTargetItem" "value")) ∧
  (∀ v : AstExpression, mkAstTargetItem (some v) none =
    .error (.missingAttribute "AstTargetItem" "arguments")) ∧
  (∀ (t : AstTarget) (v : AstExpression),
    mkAstAssignment none (some t) (some v) =
      .error (.missingAttribute "AstAssignment" "operator")) ∧
  (∀ (o : String) (v : AstExpression),
    mkAstAssignment (some o) none (some v) =
      .error (.missingAttribute "AstAssignment" "target")) ∧
  (∀ (o : String) (t : AstTarget), mkAstAssignment (some o) (some t) none =
    .error (.missingAttribute "AstAssignment" "value")) ∧
  (mkAstDecorator none =
    .error (.missingAttribute "AstDecorator" "expression")) ∧
  (∀ d : Option (Option AstExpression),
    mkAstFunctionSignatureArgument none d =
      .error (.missingAttribute "AstFunctionSignatureArgument" "name")) ∧
  (∀ (dec : Option (List AstDecorator))
      (args : List AstFunctionSignatureArgument),
    mkAstFunctionSignature dec none (some args) =
      .error (.missingAttribute "AstFunctionSignature" "name")) ∧
  (∀ (dec : Option (List AstDecorator)) (n : String),
    mkAstFunctionSignature dec (some n) none =
      .error (.missingAttribute "AstFunctionSignature" "arguments")) ∧
  (mkAstDeferredRoot none =
    .error (.missingAttribute "AstDeferredRoot" "stream")) ∧
  (mkAstMacroLiteral none =
    .error (.missingAttribute "AstMacroLiteral" "value")) ∧
  (mkAstMacroArgument none =
    .error (.missingAttribute "AstMacroArgument" "value")) ∧
  (mkAstMacroMatchLiteral none =
    .error (.missingAttribute "AstMacroMatchLiteral" "match")) ∧
  (∀ (mp : AstResourceLocation) (props : Option (Option AstJson)),
    mkAstMacroMatchArgument none (some mp) props =
      .error (.missingAttribute "AstMacroMatchArgument" "match_identifier")) ∧
  (∀ (mi : AstMacroArgument) (props : Option (Option AstJson)),
    mkAstMacroMatchArgument (some mi) none props =
      .error
        (.missingAttribute "AstMacroMatchArgument" "match_argument_parser")) ∧
  (∀ (p u : Option (Option String)) (v : AstExpression),
    mkAstInterpolation p u none (some v) =
      .error (.missingAttribute "AstInterpolation" "converter")) ∧
  (∀ (p u : Option (Option String)) (c : String),
    mkAstInterpolation p u (some c) none =
      .error (.missingAttribute "AstInterpolation" "value")) ∧
  (mkAstImportedIdentifier none =
    .error (.missingAttribute "AstImportedIdentifier" "value"))

/-- Statement that constructing any node class with every required attribute
supplied succeeds, the attributes of the returned node are exactly the
supplied values, and every optional attribute left unsupplied resolves to its
declared default.  For `AstMacroArgument` the supplied token must match the
identifier pattern of the class. -/
def constructionSuccessSpec : Prop :=
  (∀ (s : String) (h : isIdentifier s = true),
    mkAstMacroArgument (some s) = .ok ⟨s, h⟩) ∧
  (∀ cs : List AstCommand, mkAstModuleRoot (some cs) = .ok ⟨cs⟩) ∧
  (∀ (o : String) (l r : AstExpression),
    mkAstExpressionBinary (some o) (some l) (some r) =
      .ok (.AstExpressionBinary o l r)) ∧
  (∀ (o : String) (v : AstExpression),
    mkAstExpressionUnary (some o) (some v) = .ok (.AstExpressionUnary o v)) ∧
  (∀ v : PyLiteral, mkAstValue (some v) = .ok (.AstValue v)) ∧
  (∀ v : String, mkAstIdentifier (some v) = .ok (.AstIdentifier v)) ∧
  (∀ (f : String) (vs : List AstExpression),
    mkAstFormatString (some f) (some vs) = .ok (.AstFormatString f vs)) ∧
  (∀ items : List AstExpression,
    mkAstTuple (some items) = .ok (.AstTuple items)) ∧
  (∀ items : List AstExpression,
    mkAstList (some items) = .ok (.AstList items)) ∧
  (∀ k v : AstExpression, mkAstDictItem (some k) (some v) = .ok (.mk k v)) ∧
  (∀ items : List AstDictItem,
    mkAstDict (some items) = .ok (.AstDict items)) ∧
  (∀ a b c : Option AstExpression,
    mkAstSlice (some a) (some b) (some c) = .ok (.mk a b c)) ∧
  (mkAstSlice none none none = .ok (.mk none none none)) ∧
  (∀ (t : String) (v : AstExpression),
    mkAstUnpack (some t) (some v) = .ok (.mk t v)) ∧
  (∀ (n : String) (v : AstExpression),
    mkAstKeyword (some n) (some v) = .ok (.mk n v)) ∧
  (∀ (n : String) (v : AstExpression),
    mkAstAttribute (some n) (some v) = .ok (.AstAttribute n v)) ∧
  (∀ (v : AstExpression) (args : List AstLookupArgument),
    mkAstLookup (some v) (some args) = .ok (.AstLookup v args)) ∧
  (∀ (v : AstExpression) (args : List AstCallArgument),
    mkAstCall (some v) (some args) = .ok (.AstCall v args)) ∧
  (∀ (v : String) (rb : Bool), mkAstTargetIdentifier (some v) (some rb) =
    .ok (.AstTargetIdentifier v rb)) ∧
  (∀ v : String, mkAstTargetIdentifier (some v) none =
    .ok (.AstTargetIdentifier v false)) ∧
  (∀ targets : List AstTarget,
    mkAstTargetUnpack (some targets) = .ok (.AstTargetUnpack targets)) ∧
  (∀ (n : String) (v : AstExpression),
    mkAstTargetAttribute (some n) (some v) =
      .ok (.AstTargetAttribute n v)) ∧
  (∀ (v : AstExpression) (args : List AstLookupArgument),
    mkAstTargetItem (some v) (some args) = .ok (.AstTargetItem v args)) ∧
  (∀ (o : String) (t : AstTarget) (v : AstExpression),
    mkAstAssignment (some o) (some t) (some v) = .ok ⟨o, t, v⟩) ∧
  (∀ e : AstExpression, mkAstDecorator (some e) = .ok ⟨e⟩) ∧
  (∀ (n : String) (d : Option AstExpression),
    mkAstFunctionSignatureArgument (some n) (some d) = .ok ⟨n, d⟩) ∧
  (∀ n : String, mkAstFunctionSignatureArgument (some n) none =
    .ok ⟨n, none⟩) ∧
  (∀ (dec : List AstDecorator) (n : String)
      (args : List AstFunctionSignatureArgument),
    mkAstFunctionSignature (some dec) (some n) (some args) =
      .ok ⟨dec, n, args⟩) ∧
  (∀ (n : String) (args : List AstFunctionSignatureArgument),
    mkAstFunctionSignature none (some n) (some args) = .ok ⟨[], n, args⟩) ∧
  (∀ ts : TokenStream, mkAstDeferredRoot (some ts) = .ok ⟨ts⟩) ∧
  (∀ v : String, mkAstMacroLiteral (some v) = .ok ⟨v⟩) ∧
  (∀ m : AstMacroLiteral,
    mkAstMacroMatchLiteral (some m) = .ok (.AstMacroMatchLiteral m)) ∧
  (∀ (mi : AstMacroArgument) (mp : AstResourceLocation)
      (props : Option AstJson),
    mkAstMacroMatchArgument (some mi) (some mp) (some props) =
      .ok (.AstMacroMatchArgument mi mp props)) ∧
  (∀ (mi : AstMacroArgument) (mp : AstResourceLocation),
    mkAstMacroMatchArgument (some mi) (some mp) none =
      .ok (.AstMacroMatchArgument mi mp none)) ∧
  (∀ (p u : Option String) (c : String) (v : AstExpression),
    mkAstInterpolation (some p) (some u) (some c) (some v) =
      .ok ⟨p, u, c, v⟩) ∧
  (∀ (c : String) (v : AstExpression),
    mkAstInterpolation none none (some c) (some v) =
      .ok ⟨none, none, c, v⟩) ∧
  (∀ v : String, mkAstImportedIdentifier (some v) = .ok ⟨v⟩)

/-- Statement that the attributes declared with a default in
`src/bolt/ast.py` may each be omitted at construction and then resolve to
their declared default: the seven `Optional` attributes resolve to the absent
state, `AstTargetIdentifier.rebind` resolves to `False`, and
`AstFunctionSignature.decorators` resolves to the empty sequence. -/
def optionalDefaultsSpec : Prop :=
  (mkAstSlice none none none = .ok (.mk none none none)) ∧
  (∀ n : String, mkAstFunctionSignatureArgument (some n) none =
    .ok ⟨n, none⟩) ∧
  (∀ (mi : AstMacroArgument) (mp : AstResourceLocation),
    mkAstMacroMatchArgument (some mi) (some mp) none =
      .ok (.AstMacroMatchArgument mi mp none)) ∧
  (∀ (c : String) (v : AstExpression),
    mkAstInterpolation none none (some c) (some v) =
      .ok ⟨none, none, c, v⟩) ∧
  (∀ v : String, mkAstTargetIdentifier (some v) none =
    .ok (.AstTargetIdentifier v false)) ∧
  (∀ (n : String) (args : List AstFunctionSignatureArgument),
    mkAstFunctionSignature none (some n) (some args) = .ok ⟨[], n, args⟩)

/-- Statement that equality of nodes is structural: for every node class, two
nodes of that class are equal exactly when every attribute is pairwise equal,
sequence attributes compare element by element in order, reordering a
sequence attribute yields an unequal node, and construction stores a sequence
attribute exactly as supplied with no sorting or deduplication. -/
def structuralEqualitySpec : Prop :=
  (∀ a b : AstExpression,
    a ≠ b → AstExpression.AstTuple [a, b] ≠ AstExpression.AstTuple [b, a]) ∧
  (∀ m n : AstMacroArgument, m = n ↔ m.value = n.value) ∧
  (∀ (o : String) (l r : AstExpression) (o2 : String) (l2 r2 : AstExpression),
    AstExpression.AstExpressionBinary o l r =
        AstExpression.AstExpressionBinary o2 l2 r2 ↔
      o = o2 ∧ l = l2 ∧ r = r2) ∧
  (∀ (o : String) (v : AstExpression) (o2 : String) (v2 : AstExpression),
    AstExpression.AstExpressionUnary o v =
        AstExpression.AstExpressionUnary o2 v2 ↔
      o = o2 ∧ v = v2) ∧
  (∀ v v2 : PyLiteral,
    AstExpression.AstValue v = AstExpression.AstValue v2 ↔ v = v2) ∧
  (∀ v v2 : String,
    AstExpression.AstIdentifier v = AstExpression.AstIdentifier v2 ↔
      v = v2) ∧
  (∀ (f : String) (vs : List AstExpression) (f2 : String)
      (vs2 : List AstExpression),
    AstExpression.AstFormatString f vs =
        AstExpression.AstFormatString f2 vs2 ↔
      f = f2 ∧ vs = vs2) ∧
  (∀ items items2 : List AstExpression,
    AstExpression.AstTuple items = AstExpression.AstTuple items2 ↔
      items = items2) ∧
  (∀ items items2 : List AstExpression,
    AstExpression.AstList items = AstExpression.AstList items2 ↔
      items = items2) ∧
  (∀ items items2 : List AstDictItem,
    AstExpression.AstDict items = AstExpression.AstDict items2 ↔
      items = items2) ∧
  (∀ (n : String) (v : AstExpression) (n2 : String) (v2 : AstExpression),
    AstExpression.AstAttribute n v = AstExpression.AstAttribute n2 v2 ↔
      n = n2 ∧ v = v2) ∧
  (∀ (v : AstExpression) (args : List AstLookupArgument)
      (v2 : AstExpression) (args2 : List AstLookupArgument),
    AstExpression.AstLookup v args = AstExpression.AstLookup v2 args2 ↔
      v = v2 ∧ args = args2) ∧
  (∀ (v : AstExpression) (args : List AstCallArgument) (v2 : AstExpression)
      (args2 : List AstCallArgument),
    AstExpression.AstCall v args = AstExpression.AstCall v2 args2 ↔
      v = v2 ∧ args = args2) ∧
  (∀ k v k2 v2 : AstExpression,
    AstDictItem.mk k v = AstDictItem.mk k2 v2 ↔ k = k2 ∧ v = v2) ∧
  (∀ a b c a2 b2 c2 : Option AstExpression,
    AstSlice.mk a b c = AstSlice.mk a2 b2 c2 ↔
      a = a2 ∧ b = b2 ∧ c = c2) ∧
  (∀ (t : String) (v : AstExpression) (t2 : String) (v2 : AstExpression),
    AstUnpack.mk t v = AstUnpack.mk t2 v2 ↔ t = t2 ∧ v = v2) ∧
  (∀ (n : String) (v : AstExpression) (n2 : String) (v2 : AstExpression),
    AstKeyword.mk n v = AstKeyword.mk n2 v2 ↔ n = n2 ∧ v = v2) ∧
  (∀ (v : String) (rb : Bool) (v2 : String) (rb2 : Bool),
    AstTarget.AstTargetIdentifier v rb =
        AstTarget.AstTargetIdentifier v2 rb2 ↔
      v = v2 ∧ rb = rb2) ∧
  (∀ ts ts2 : List AstTarget,
    AstTarget.AstTargetUnpack ts = AstTarget.AstTargetUnpack ts2 ↔
      ts = ts2) ∧
  (∀ (n : String) (v : AstExpression) (n2 : String) (v2 : AstExpression),
    AstTarget.AstTargetAttribute n v = AstTarget.AstTargetAttribute n2 v2 ↔
      n = n2 ∧ v = v2) ∧
  (∀ (v : AstExpression) (args : List AstLookupArgument)
      (v2 : AstExpression) (args2 : List AstLookupArgument),
    AstTarget.AstTargetItem v args = AstTarget.AstTargetItem v2 args2 ↔
      v = v2 ∧ args = args2) ∧
  (∀ (o : String) (t : AstTarget) (v : AstExpression) (o2 : String)
      (t2 : AstTarget) (v2 : AstExpression),
    (⟨o, t, v⟩ : AstAssignment) = ⟨o2, t2, v2⟩ ↔
      o = o2 ∧ t = t2 ∧ v = v2) ∧
  (∀ e e2 : AstExpression,
    (⟨e⟩ : AstDecorator) = ⟨e2⟩ ↔ e = e2) ∧
  (∀ (n : String) (d : Option AstExpression) (n2 : String)
      (d2 : Option AstExpression),
    (⟨n, d⟩ : AstFunctionSignatureArgument) = ⟨n2, d2⟩ ↔
      n = n2 ∧ d = d2) ∧
  (∀ (dec : List AstDecorator) (n : String)
      (args : List AstFunctionSignatureArgument) (dec2 : List AstDecorator)
      (n2 : String) (args2 : List AstFunctionSignatureArgument),
    (⟨dec, n, args⟩ : AstFunctionSignature) = ⟨dec2, n2, args2⟩ ↔
      dec = dec2 ∧ n = n2 ∧ args = args2) ∧
  (∀ t u : TokenStream, (⟨t⟩ : AstDeferredRoot) = ⟨u⟩ ↔ t = u) ∧
  (∀ v v2 : String, (⟨v⟩ : AstMacroLiteral) = ⟨v2⟩ ↔ v = v2) ∧
  (∀ m m2 : AstMacroLiteral,
    AstMacroMatch.AstMacroMatchLiteral m =
        AstMacroMatch.AstMacroMatchLiteral m2 ↔
      m = m2) ∧
  (∀ (mi : AstMacroArgument) (mp : AstResourceLocation)
      (props : Option AstJson) (mi2 : AstMacroArgument)
      (mp2 : AstResourceLocation) (props2 : Option AstJson),
    AstMacroMatch.AstMacroMatchArgument mi mp props =
        AstMacroMatch.AstMacroMatchArgument mi2 mp2 props2 ↔
      mi = mi2 ∧ mp = mp2 ∧ props = props2) ∧
  (∀ (p u : Option String) (c : String) (v : AstExpression)
      (p2 u2 : Option String) (c2 : String) (v2 : AstExpression),
    (⟨p, u, c, v⟩ : AstInterpolation) = ⟨p2, u2, c2, v2⟩ ↔
      p = p2 ∧ u = u2 ∧ c = c2 ∧ v = v2) ∧
  (∀ v v2 : String, (⟨v⟩ : AstImportedIdentifier) = ⟨v2⟩ ↔ v = v2) ∧
  (∀ cs cs2 : List AstCommand,
    (⟨cs⟩ : AstModuleRoot) = ⟨cs2⟩ ↔ cs = cs2) ∧
  (∀ items : List AstExpression,
    mkAstTuple (some items) = .ok (.AstTuple items)) ∧
  (∀ items : List AstExpression,
    mkAstList (some items) = .ok (.AstList items)) ∧
  (∀ targets : List AstTarget,
    mkAstTargetUnpack (some targets) = .ok (.AstTargetUnpack targets))

/-- Statement that every node class is immutable: attempting to assign any
attribute of any constructed node raises the frozen-instance error for that
attribute and leaves the node exactly as it was. -/
def immutabilitySpec : Prop :=
  (∀ (n : AstExpression) (a : String) (γ : Type) (v : γ),
    frozenSetattr n a v = ⟨⟨a⟩, n⟩) ∧
  (∀ (n : AstDictItem) (a : String) (γ : Type) (v : γ),
    frozenSetattr n a v = ⟨⟨a⟩, n⟩) ∧
  (∀ (n : AstSlice) (a : String) (γ : Type) (v : γ),
    frozenSetattr n a v = ⟨⟨a⟩, n⟩) ∧
  (∀ (n : AstUnpack) (a : String) (γ : Type) (v : γ),
    frozenSetattr n a v = ⟨⟨a⟩, n⟩) ∧
  (∀ (n : AstKeyword) (a : String) (γ : Type) (v : γ),
    frozenSetattr n a v = ⟨⟨a⟩, n⟩) ∧
  (∀ (n : AstTarget) (a : String) (γ : Type) (v : γ),
    frozenSetattr n a v = ⟨⟨a⟩, n⟩) ∧
  (∀ (n : AstAssignment) (a : String) (γ : Type) (v : γ),
    frozenSetattr n a v = ⟨⟨a⟩, n⟩) ∧
  (∀ (n : AstDecorator) (a : String) (γ : Type) (v : γ),
    frozenSetattr n a v = ⟨⟨a⟩, n⟩) ∧
  (∀ (n : AstFunctionSignatureArgument) (a : String) (γ : Type) (v : γ),
    frozenSetattr n a v = ⟨⟨a⟩, n⟩) ∧
  (∀ (n : AstFunctionSignature) (a : String) (γ : Type) (v : γ),
    frozenSetattr n a v = ⟨⟨a⟩, n⟩) ∧
  (∀ (n : AstDeferredRoot) (a : String) (γ : Type) (v : γ),
    frozenSetattr n a v = ⟨⟨a⟩, n⟩) ∧
  (∀ (n : AstMacroLiteral) (a : String) (γ : Type) (v : γ),
    frozenSetattr n a v = ⟨⟨a⟩, n⟩) ∧
  (∀ (n : AstMacroArgument) (a : String) (γ : Type) (v : γ),
    frozenSetattr n a v = ⟨⟨a⟩, n⟩) ∧
  (∀ (n : AstMacroMatch) (a : String) (γ : Type) (v : γ),
    frozenSetattr n a v = ⟨⟨a⟩, n⟩) ∧
  (∀ (n : AstInterpolation) (a : String) (γ : Type) (v : γ),
    frozenSetattr n a v = ⟨⟨a⟩, n⟩) ∧
  (∀ (n : AstImportedIdentifier) (a : String) (γ : Type) (v : γ),
    frozenSetattr n a v = ⟨⟨a⟩, n⟩) ∧
  (∀ (n : AstModuleRoot) (a : String) (γ : Type) (v : γ),
    frozenSetattr n a v = ⟨⟨a⟩, n⟩)

theorem requiredOmissionErrors_hold : requiredOmissionErrors := by
  unfold requiredOmissionErrors
  repeat' apply And.intro
  all_goals intros
  all_goals rfl

theorem constructionSuccess_hold : constructionSuccessSpec := by
  unfold constructionSuccessSpec
  refine ⟨?_, ?_⟩
  · intro s h
    simp [mkAstMacroArgument, h]
  · repeat' apply And.intro
    all_goals intros
    all_goals rfl

theorem optionalDefaults_hold : optionalDefaultsSpec := by
  unfold optionalDefaultsSpec
  repeat' apply And.intro
  all_goals intros
  all_goals rfl

theorem structuralEquality_hold : structuralEqualitySpec := by
  unfold structuralEqualitySpec
  refine ⟨?_, ?_, ?_⟩
  · intro a b h
    simp
    intro hab
    exact absurd hab h
  · intro m n
    cases m
    cases n
    simp
  · repeat' apply And.intro
    all_goals intros
    all_goals simp [mkAstTuple, mkAstList, mkAstTargetUnpack]

theorem immutability_hold : immutabilitySpec := by
  unfold immutabilitySpec
  repeat' apply And.intro
  all_goals intros
  all_goals rfl

/-- C1: for every node class of the model, constructing an instance while
leaving any one required attribute unset fails at construction time with an
error identifying the missing attribute by name and the owning node class; in
particular `AstIdentifier()` with no `value` fails naming `value` as missing
on `AstIdentifier`. -/
theorem claimC1_required_attribute_omission_error : requiredOmissionErrors :=
  requiredOmissionErrors_hold

/-- C2 counterexample: two attributes outside the set listed by the claim can
be omitted at construction without failure: `AstTargetIdentifier.rebind`
(defaults to `False`) and `AstFunctionSignature.decorators` (defaults to the
empty sequence), so omitting them is not a construction-time failure. -/
theorem claimC2_counterexample_omittable_defaults :
    mkAstTargetIdentifier (some "x") none =
        .ok (.AstTargetIdentifier "x" false) ∧
      mkAstFunctionSignature none (some "f") (some []) = .ok ⟨[], "f", []⟩ :=
  ⟨rfl, rfl⟩

/-- C2 amended: the attributes `AstSlice.start/stop/step`,
`AstFunctionSignatureArgument.default`,
`AstMacroMatchArgument.match_argument_properties` and
`AstInterpolation.prefix/unpack` are the only attributes with a defined
absent state; in addition `AstTargetIdentifier.rebind` and
`AstFunctionSignature.decorators` may be omitted at construction, defaulting
to `False` and to the empty sequence respectively; every other attribute of
every node class is mandatory and omitting it is a construction-time
failure. -/
theorem claimC2_amended_omittable_attributes :
    optionalDefaultsSpec ∧ requiredOmissionErrors :=
  ⟨optionalDefaults_hold, requiredOmissionErrors_hold⟩

/-- C3: for every node class, two independently constructed nodes of the same
variant are structurally equal exactly when every attribute is pairwise
equal, including the exact order of every ordered-sequence attribute;
constructing the same node with a sequence attribute in a different order
yields an unequal node, and no node sorts or deduplicates its children. -/
theorem claimC3_structural_equality : structuralEqualitySpec :=
  structuralEquality_hold

/-- C3 witness: the tuple of the identifiers `x` and `y` differs from the
tuple of the same identifiers in the opposite order. -/
theorem claimC3_structural_equality_witness :
    AstExpression.AstTuple
        [.AstIdentifier "x", .AstIdentifier "y"] ≠
      AstExpression.AstTuple
        [.AstIdentifier "y", .AstIdentifier "x"] :=
  claimC3_structural_equality.1 _ _ (by simp)

/-- C4: every node class is immutable once constructed: attempting to assign
any attribute of a constructed node raises the frozen-instance error and the
node's observable attribute values are identical before and after the
attempt. -/
theorem claimC4_immutability : immutabilitySpec :=
  immutability_hold

/-- C5: the target family and the expression family are disjoint: no class of
the model is a subclass of both `AstTarget` and `AstExpression`, every target
variant is accepted only where a target is required, and every expression
variant is accepted only where an expression is required. -/
theorem claimC5_target_expression_disjoint :
    (concreteNodeClasses.all fun c =>
        !(isSubclassOf c "AstTarget" && isSubclassOf c "AstExpression")) =
        true ∧
      (targetVariantClasses.all fun c =>
        isSubclassOf c "AstTarget" && !(isSubclassOf c "AstExpression")) =
        true ∧
      (expressionVariantClasses.all fun c =>
        isSubclassOf c "AstExpression" && !(isSubclassOf c "AstTarget")) =
        true :=
  ⟨by decide, by decide, by decide⟩

/-- C6: constructing `AstFunctionSignature` with `name` supplied and
`arguments` supplied as an empty sequence succeeds with `decorators`
defaulting to the empty sequence, while omitting `name` or omitting
`arguments` entirely fails construction naming the omitted attribute. -/
theorem claimC6_function_signature_construction :
    mkAstFunctionSignature none (some "f") (some []) = .ok ⟨[], "f", []⟩ ∧
      (∀ (dec : Option (List AstDecorator))
          (args : List AstFunctionSignatureArgument),
        mkAstFunctionSignature dec none (some args) =
          .error (.missingAttribute "AstFunctionSignature" "name")) ∧
      (∀ (dec : Option (List AstDecorator)) (n : String),
        mkAstFunctionSignature dec (some n) none =
          .error (.missingAttribute "AstFunctionSignature" "arguments")) :=
  ⟨rfl, fun _ _ => rfl, fun _ _ => rfl⟩

/-- C7: a token that does not match the identifier lexical pattern is
rejected at the point of constructing an `AstMacroArgument`, and no
`AstMacroArgument` node holding such a token exists at all. -/
theorem claimC7_macro_argument_pattern (s : String)
    (h : isIdentifier s = false) :
    mkAstMacroArgument (some s) =
        .error (.shapeViolation "AstMacroArgument" s) ∧
      ∀ m : AstMacroArgument, m.value ≠ s := by
  constructor
  · simp [mkAstMacroArgument, h]
  · intro m hv
    have hm := m.valid
    rw [hv] at hm
    simp [hm] at h

/-- C7 witness: the token `1abc` does not match the identifier pattern and
its construction as an `AstMacroArgument` is rejected. -/
theorem claimC7_macro_argument_pattern_witness :
    mkAstMacroArgument (some "1abc") =
      .error (.shapeViolation "AstMacroArgument" "1abc") :=
  (claimC7_macro_argument_pattern "1abc" (by decide)).1

/-- C8: constructing any node class with all required attributes supplied
succeeds, the returned node's attributes equal the supplied values exactly
(including order for sequence attributes), every optional attribute left
unsupplied resolves to its documented absent state, and `AstSlice`
constructed with `start`, `stop` and `step` all absent is a valid node with
all three absent. -/
theorem claimC8_construction_success : constructionSuccessSpec :=
  constructionSuccess_hold

/-- C8 witness: constructing `AstMacroArgument` from the identifier-shaped
token `abc` succeeds and stores the token. -/
theorem claimC8_construction_success_witness :
    mkAstMacroArgument (some "abc") = .ok ⟨"abc", by decide⟩ :=
  claimC8_construction_success.1 "abc" (by decide)

/-- C9: equality of `AstDeferredRoot` is not structural over the deferred
input: it compares the retained stream attribute, which falls back to object
identity, so two nodes built over distinct but content-identical streams are
unequal while two nodes referencing the same stream object are equal. -/
theorem claimC9_deferred_root_identity_equality :
    (∀ (id1 id2 : Nat) (src : String), id1 ≠ id2 →
      pyEqAstDeferredRoot ⟨⟨id1, src⟩⟩ ⟨⟨id2, src⟩⟩ = false) ∧
      (∀ ts : TokenStream, pyEqAstDeferredRoot ⟨ts⟩ ⟨ts⟩ = true) ∧
      (∀ a b : AstDeferredRoot,
        pyEqAstDeferredRoot a b = pyEqTokenStream a.stream b.stream) := by
  refine ⟨?_, ?_, ?_⟩
  · intro id1 id2 src h
    simp [pyEqAstDeferredRoot, pyEqTokenStream]
    exact h
  · intro ts
    simp [pyEqAstDeferredRoot, pyEqTokenStream]
  · intro a b
    rfl

/-- C9 witness: two deferred roots over distinct stream objects buffering the
same source text are unequal. -/
theorem claimC9_deferred_root_identity_equality_witness :
    pyEqAstDeferredRoot ⟨⟨1, "src"⟩⟩ ⟨⟨2, "src"⟩⟩ = false :=
  claimC9_deferred_root_identity_equality.1 1 2 "src" (by decide)

/-- C10: hashing is consistent with equality for every node class: any two
nodes that compare equal have equal hash values; for `AstDeferredRoot`,
whose equality is decided by stream object identity, identity-equal nodes
also hash equal. -/
theorem claimC10_hash_consistent_with_equality :
    (∀ a b : AstDeferredRoot, pyEqAstDeferredRoot a b = true →
      pyHashAstDeferredRoot a = pyHashAstDeferredRoot b) ∧
      (∀ a b : AstExpression, a = b → pyHashExpr a = pyHashExpr b) ∧
      (∀ a b : AstDictItem, a = b → pyHashDictItem a = pyHashDictItem b) ∧
      (∀ a b : AstSlice, a = b → pyHashSlice a = pyHashSlice b) ∧
      (∀ a b : AstUnpack, a = b → pyHashUnpack a = pyHashUnpack b) ∧
      (∀ a b : AstKeyword, a = b → pyHashKeyword a = pyHashKeyword b) ∧
      (∀ a b : AstTarget, a = b → pyHashTarget a = pyHashTarget b) ∧
      (∀ a b : AstAssignment, a = b →
        pyHashAssignment a = pyHashAssignment b) ∧
      (∀ a b : AstDecorator, a = b → pyHashDecorator a = pyHashDecorator b) ∧
      (∀ a b : AstFunctionSignatureArgument, a = b →
        pyHashFunctionSignatureArgument a =
          pyHashFunctionSignatureArgument b) ∧
      (∀ a b : AstFunctionSignature, a = b →
        pyHashFunctionSignature a = pyHashFunctionSignature b) ∧
      (∀ a b : AstMacroLiteral, a = b →
        pyHashMacroLiteral a = pyHashMacroLiteral b) ∧
      (∀ a b : AstMacroArgument, a = b →
        pyHashMacroArgument a = pyHashMacroArgument b) ∧
      (∀ a b : AstMacroMatch, a = b →
        pyHashMacroMatch a = pyHashMacroMatch b) ∧
      (∀ a b : AstInterpolation, a = b →
        pyHashInterpolation a = pyHashInterpolation b) ∧
      (∀ a b : AstImportedIdentifier, a = b →
        pyHashImportedIdentifier a = pyHashImportedIdentifier b) ∧
      (∀ a b : AstModuleRoot, a = b →
        pyHashModuleRoot a = pyHashModuleRoot b) := by
  refine ⟨?_, ?_⟩
  · intro a b h
    have h2 : a.stream.objectId = b.stream.objectId := by
      simpa [pyEqAstDeferredRoot, pyEqTokenStream] using h
    simp [pyHashAstDeferredRoot, pyHashTokenStream, h2]
  · repeat' apply And.intro
    all_goals intro a b h
    all_goals rw [h]

/-- C10 witness: two deferred roots sharing the same stream object compare
equal and their hashes agree. -/
theorem claimC10_hash_consistent_with_equality_witness :
    pyHashAstDeferredRoot ⟨⟨5, "src"⟩⟩ = pyHashAstDeferredRoot ⟨⟨5, "src"⟩⟩ :=
  claimC10_hash_consistent_with_equality.1 _ _ (by decide)
